import Mathlib

/-!
Shallow embedding of the RAG question-answering backend:
`app/api/routes/documents.py`, `app/core/document_processor.py`,
`app/core/vector_store.py`, `app/core/rag_chain.py`,
`app/core/ragas_evaluator.py`, with defaults from `app/config.py`.

External services (the PDF/TXT/CSV loaders, the text splitter, the Qdrant
client, the chat model, the RAGAS metrics) are modelled as explicit inputs;
every branch, check and exception handler of the repository code is
translated directly from the Python source.
-/

namespace RagQA

/-- Python exception values raised by the embedded code. -/
inductive PyErr where
  | valueError (msg : String)
  | typeError (msg : String)
  | nameError (missing : String)
  | attributeError (attr : String)
  | unexpectedResponse
  | httpException (status : Nat) (detail : String)
deriving Repr, DecidableEq

/-- Python `str(e)` for the exceptions above. Python quotes the offending
name in NameError/AttributeError messages; the quote characters are elided
here, the carried data is the same. -/
def pyStr : PyErr → String
  | .valueError m => m
  | .typeError m => m
  | .nameError n => "name " ++ n ++ " is not defined"
  | .attributeError a => "RAGChain object has no attribute " ++ a
  | .unexpectedResponse => "Unexpected Response"
  | .httpException _ d => d

/-! ## pathlib: `Path(file_name).suffix.lower()`
`document_processor.py` computes the extension of an uploaded filename with
`Path(file_name).suffix.lower()`. `Path.name` is the final path component
(trailing slashes stripped); `Path.suffix` is the part of the name from its
last dot, and is empty when that dot is the first or the last character of
the name. Modelled on the character list of the string. -/

def stripTrailingSlashes (cs : List Char) : List Char :=
  (cs.reverse.dropWhile (fun c => c = '/')).reverse

def afterLastSlash (cs : List Char) : List Char :=
  (cs.reverse.takeWhile (fun c => c ≠ '/')).reverse

/-- `Path(s).name` for upload filenames (drive/anchor handling of absolute
Windows paths is out of scope for multipart filenames). -/
def pathName (s : String) : String :=
  String.mk (afterLastSlash (stripTrailingSlashes s.data))

/-- Index of the last dot of the list, as `str.rfind`. -/
def rfindDot (cs : List Char) : Option Nat :=
  match cs.reverse.findIdx? (fun c => c = '.') with
  | none => none
  | some j => some (cs.length - 1 - j)

/-- `Path(s).suffix`: from the last dot of the name, empty when the dot is
leading or trailing. -/
def pathSuffix (s : String) : String :=
  let cs := (pathName s).data
  match rfindDot cs with
  | none => ""
  | some i => if 0 < i ∧ i + 1 < cs.length then String.mk (cs.drop i) else ""

/-- `Path(s).suffix.lower()` (ASCII lowering, as `str.lower` on extensions). -/
def suffixLower (s : String) : String :=
  String.mk ((pathSuffix s).data.map Char.toLower)

/-! ## langchain documents -/

/-- `langchain_core.documents.Document`: page content plus a metadata dict,
the dict modelled as an association list. -/
structure Document where
  page_content : String
  metadata : List (String × String)
deriving Repr, DecidableEq

/-- Python dict assignment `d[k] = v` on an association list. -/
def setKey (m : List (String × String)) (k v : String) : List (String × String) :=
  if m.filter (fun p => p.1 = k) = [] then m ++ [(k, v)]
  else m.map (fun p => if p.1 = k then (k, v) else p)

/-! ## `app/core/document_processor.py` -/

/-- `DocumentProcessor.SUPPORTED_EXTENSIONS` (a Python set; membership only
is used, so a list model is adequate). -/
def SUPPORTED_EXTENSIONS : List String := [".pdf", ".txt", ".csv"]

/-- Python `x or default` on an optional int: `None` and `0` are falsy and
fall back to the default, every other value (negatives included) is kept. -/
def pyOrInt : Option Int → Int → Int
  | none, d => d
  | some v, d => if v = 0 then d else v

/-- The state a `DocumentProcessor` instance carries after `__init__`. -/
structure DocumentProcessor where
  chunk_size : Int
  chunk_overlap : Int
deriving Repr, DecidableEq

/-- `Settings.CHUNK_SIZE` default from `app/config.py`. -/
def CHUNK_SIZE_default : Int := 1000

/-- `Settings.CHUNK_OVERLAP` default from `app/config.py`. -/
def CHUNK_OVERLAP_default : Int := 200

/-- `DocumentProcessor.__init__`: `chunk_size or settings.CHUNK_SIZE` and
`chunk_overlap or settings.CHUNK_OVERLAP`, then construction of the
third-party `RecursiveCharacterTextSplitter`, whose only validation
(`langchain` `TextSplitter.__init__`) raises `ValueError` when the overlap
is larger than the size. No positivity check exists anywhere on this path. -/
def documentProcessorInit (chunk_size chunk_overlap : Option Int) :
    Except PyErr DocumentProcessor :=
  let size := pyOrInt chunk_size CHUNK_SIZE_default
  let overlap := pyOrInt chunk_overlap CHUNK_OVERLAP_default
  if overlap > size then
    .error (.valueError ("Got a larger chunk overlap (" ++ toString overlap ++
      ") than chunk size (" ++ toString size ++ "), should be smaller."))
  else
    .ok ⟨size, overlap⟩

/-- `DocumentProcessor.load_from_upload`: reject a filename whose lowered
suffix is outside `SUPPORTED_EXTENSIONS` with `ValueError`, otherwise load
the file (the third-party loader result is the `loaded` input) and set
`doc.metadata['source'] = file_name` on every document. The Python error
message continues with the repr of the supported-extension set, elided
here. -/
def loadFromUpload (file_name : String) (loaded : List Document) :
    Except PyErr (List Document) :=
  let extension := suffixLower file_name
  if extension ∈ SUPPORTED_EXTENSIONS then
    .ok (loaded.map (fun d => ⟨d.page_content, setKey d.metadata "source" file_name⟩))
  else
    .error (.valueError ("Unsupported file extension: " ++ extension))

/-- `DocumentProcessor.process_upload`: `load_from_upload` then
`split_documents`; the third-party splitter is the `split` input. -/
def processUpload (file_name : String) (loaded : List Document)
    (split : List Document → List Document) : Except PyErr (List Document) :=
  (loadFromUpload file_name loaded).map split

/-- Python `await v`: succeeds only when `v` is awaitable (the result of an
`async def` call); awaiting the plain value returned by a synchronous `def`
raises `TypeError` (the Python message names the type of `v`). -/
def pyAwait (α : Type) (isCoroutine : Bool) (v : α) : Except PyErr α :=
  if isCoroutine then .ok v
  else .error (.typeError "object cannot be used in await expression")

/-- `DocumentProcessor.process_upload` is declared `def`, not `async def`,
so its result is not awaitable. -/
def processUpload_isCoroutine : Bool := false

/-- `VectorStoreService.add_documents` is declared `def`, not `async def`,
so its result is not awaitable. -/
def addDocuments_isCoroutine : Bool := false

/-! ## `app/core/vector_store.py` -/

/-- Body of `VectorStoreService.add_documents`: an empty list returns `[]`
without touching the store; otherwise one fresh `uuid4` string per document
is generated (`uuidGen` models the uuid4 stream) and the documents are
upserted under exactly those ids. -/
def addDocumentsBody (store : List (String × Document)) (uuidGen : Nat → String)
    (documents : List Document) : List String × List (String × Document) :=
  if documents = [] then ([], store)
  else
    let ids := (List.range documents.length).map uuidGen
    (ids, store ++ ids.zip documents)

/-- Names in scope when the `def add_documents(self, documents, ids=ids)`
line of `vector_store.py` executes during class creation: the module
globals defined above the class plus the class-body names bound before this
method. `ids` is not among them. -/
def vectorStoreScopeAtAddDocumentsDef : List String :=
  ["lru_cache", "Any", "uuid4", "Document", "QdrantVectorStore", "QdrantClient",
   "UnexpectedResponse", "Distance", "VectorParams", "get_settings", "get_logger",
   "get_embeddings", "logger", "settings", "EMBEDDING_DIMENSION",
   "get_qdrant_client", "__init__", "_ensure_collection"]

/-- Python evaluates default-argument expressions at `def` time: defining
`VectorStoreService` evaluates the default `ids=ids`, which succeeds only
if the name `ids` is bound in the enclosing scope. -/
def vectorStoreClassDefinition : Except PyErr Unit :=
  if "ids" ∈ vectorStoreScopeAtAddDocumentsDef then .ok ()
  else .error (.nameError "ids")

/-- What the Qdrant server stores about the configured collection when it
exists. -/
structure CollectionInfo where
  points_count : Nat
  indexed_vectors_count : Nat
  status : String
deriving Repr, DecidableEq

/-- `client.get_collection(name)`: raises `UnexpectedResponse` when the
collection does not exist. -/
def getCollection : Option CollectionInfo → Except PyErr CollectionInfo
  | some c => .ok c
  | none => .error .unexpectedResponse

/-- `client.create_collection(...)`: a freshly created Qdrant collection is
empty (zero points, zero indexed vectors); its status string is reported by
the server (`freshStatus`, "green" for a healthy new collection). -/
def createCollection (freshStatus : String) : Option CollectionInfo :=
  some ⟨0, 0, freshStatus⟩

/-- `VectorStoreService._ensure_collection`: `get_collection`, and on
`UnexpectedResponse` create the collection. -/
def ensureCollection (freshStatus : String) (st : Option CollectionInfo) :
    Option CollectionInfo :=
  match getCollection st with
  | .ok _ => st
  | .error _ => createCollection freshStatus

/-- Result dict of `VectorStoreService.get_collection_info`. -/
structure CollectionInfoDict where
  name : String
  points_count : Nat
  indexed_vectors_count : Nat
  status : String
deriving Repr, DecidableEq

/-- `VectorStoreService.get_collection_info`: read the live collection, and
on `UnexpectedResponse` return zero counts with status "not_found". -/
def getCollectionInfo (collection_name : String) (st : Option CollectionInfo) :
    CollectionInfoDict :=
  match getCollection st with
  | .ok c => ⟨collection_name, c.points_count, c.indexed_vectors_count, c.status⟩
  | .error _ => ⟨collection_name, 0, 0, "not_found"⟩

/-! ## `app/api/routes/documents.py` -/

/-- Modelled from the spec: `app.api.schemas.DocumentListResponse` is
imported by `documents.py` but the schemas module is missing from the
sources; fields follow the spec JSON shape
`\x7bcollection_name, total_documents, status\x7d` and the keyword call in
`get_collection_info`. -/
structure DocumentListResponse where
  collection_name : String
  total_documents : Nat
  status : String
deriving Repr, DecidableEq

/-- `GET /documents/info`: construct `VectorStoreService()` (whose
constructor runs `_ensure_collection`, creating the collection when it is
missing) and then call `get_collection_info` on the resulting state. -/
def infoRoute (collection_name freshStatus : String) (st : Option CollectionInfo) :
    Except PyErr DocumentListResponse :=
  let st2 := ensureCollection freshStatus st
  let info := getCollectionInfo collection_name st2
  .ok ⟨info.name, info.points_count, info.status⟩

/-- Modelled from the spec: `app.api.schemas.DocumentUploadResponse` is
imported by `documents.py` but the schemas module is missing from the
sources; fields follow the spec JSON shape
`\x7bmessage, filename, chunks_created, document_ids[]\x7d` and the keyword
call in `upload_document`. -/
structure DocumentUploadResponse where
  message : String
  filename : String
  chunks_created : Nat
  document_ids : List String
deriving Repr, DecidableEq

/-- Side effects the upload handler can perform, in order: a call into the
document processor, and an upsert of `count` chunks into the vector store. -/
inductive UploadEffect where
  | processCalled
  | storeAdd (count : Nat)
deriving Repr, DecidableEq

/-- HTTP outcome of the upload endpoint. -/
inductive UploadResult where
  | success (resp : DocumentUploadResponse)
  | failure (status : Nat) (detail : String)
deriving Repr, DecidableEq

/-- Outcome of the `try` block of `upload_document`, with the effects
performed and the resulting store. -/
structure TryOutcome where
  result : Except PyErr DocumentUploadResponse
  effects : List UploadEffect
  store : List (String × Document)
deriving Repr

/-- Full outcome of the upload endpoint. -/
structure UploadOutcome where
  result : UploadResult
  effects : List UploadEffect
  store : List (String × Document)
deriving Repr, DecidableEq

/-- The `try` block of `upload_document`, statement by statement:
`DocumentProcessor()`; `chunks = await processor.process_upload(...)` (the
synchronous call runs first, then the `await` of its plain-list result
raises `TypeError`); `if not chunks: raise HTTPException(400, ...)` (raised
inside the `try`, so it would be caught by the handler own
`except Exception`); `document_ids = await vector_store.add_documents(...)`;
then the success response. -/
def uploadTryBody (filename : String) (loaded : List Document)
    (split : List Document → List Document) (store : List (String × Document))
    (uuidGen : Nat → String) : TryOutcome :=
  match documentProcessorInit none none with
  | .error e => ⟨.error e, [], store⟩
  | .ok _ =>
    match processUpload filename loaded split with
    | .error e => ⟨.error e, [.processCalled], store⟩
    | .ok chunksVal =>
      match pyAwait (List Document) processUpload_isCoroutine chunksVal with
      | .error e => ⟨.error e, [.processCalled], store⟩
      | .ok chunks =>
        if chunks = [] then
          ⟨.error (.httpException 400 "No content was extracted from the document."),
           [.processCalled], store⟩
        else
          let out := addDocumentsBody store uuidGen chunks
          match pyAwait (List String) addDocuments_isCoroutine out.1 with
          | .error e => ⟨.error e, [.processCalled, .storeAdd chunks.length], out.2⟩
          | .ok document_ids =>
            ⟨.ok ⟨"Document uploaded and processed successfully.", filename,
                  chunks.length, document_ids⟩,
             [.processCalled, .storeAdd chunks.length], out.2⟩

/-- `POST /documents/upload`: the filename guard raises `HTTPException 400`
before the `try` block; inside the `try`, `except ValueError` maps to
HTTP 400 with `str(e)` and `except Exception` maps everything else to
HTTP 500. -/
def uploadDocumentRoute (filename : Option String) (loaded : List Document)
    (split : List Document → List Document) (store : List (String × Document))
    (uuidGen : Nat → String) : UploadOutcome :=
  match filename with
  | none => ⟨.failure 400 "Filename is required.", [], store⟩
  | some fn =>
    if fn = "" then ⟨.failure 400 "Filename is required.", [], store⟩
    else
      let t := uploadTryBody fn loaded split store uuidGen
      match t.result with
      | .ok resp => ⟨.success resp, t.effects, t.store⟩
      | .error (.valueError m) => ⟨.failure 400 m, t.effects, t.store⟩
      | .error _ =>
        ⟨.failure 500 "Internal server error during document upload.", t.effects, t.store⟩

/-! ## `app/core/rag_chain.py` -/

/-- The method names bound in the `RAGChain` class body. The intended
constructor is misspelled `__init` (a single trailing underscore pair is
missing), so the class has no `__init__`. -/
def ragChainClassMethods : List String :=
  ["__init", "evaluator", "query", "query_with_sources", "aquery",
   "aquery_with_sources", "aquery_with_evaluation", "stream"]

/-- Instance attributes after `RAGChain()`: Python only runs a constructor
named `__init__`; since the class defines none, the default object
constructor runs and binds nothing. (Were `__init` spelled `__init__`, it
would bind the listed attributes.) -/
def ragChainNewAttrs : List String :=
  if "__init__" ∈ ragChainClassMethods then
    ["vector_store", "retriever", "_evaluator", "llm", "prompt", "chain"]
  else []

/-- `RAGChain.query`: `self.chain.invoke(...)` looks `chain` up on the
instance and then on the class; when absent in both, Python raises
`AttributeError`. `chainAnswer` models the external chat-model pipeline. -/
def ragChainQuery (attrs : List String) (chainAnswer : String → String)
    (question : String) : Except PyErr String :=
  if "chain" ∈ attrs ∨ "chain" ∈ ragChainClassMethods then .ok (chainAnswer question)
  else .error (.attributeError "chain")

/-- One entry of the `sources` list built by `query_with_sources` and
`aquery_with_sources`: the page content truncated to its first 500
characters plus "..." when longer than 500, and the document metadata. -/
structure SourceEntry where
  content : String
  metadata : List (String × String)
deriving Repr, DecidableEq

/-- Python `len` on a string: number of characters. -/
def pyLen (s : String) : Nat := s.data.length

/-- Python `s[:n]`: the first `n` characters. -/
def pyTake (s : String) (n : Nat) : String := String.mk (s.data.take n)

/-- The source-formatting expression of `query_with_sources`:
`doc.page_content[:500] + "..." if len(doc.page_content) > 500 else
doc.page_content`, with the metadata passed through. -/
def formatSourceEntry (d : Document) : SourceEntry :=
  ⟨if pyLen d.page_content > 500 then pyTake d.page_content 500 ++ "..."
    else d.page_content,
   d.metadata⟩

/-- Return dict of `query_with_sources` / `aquery_with_sources`. -/
structure QuerySourcesResult where
  answer : String
  sources : List SourceEntry
deriving Repr, DecidableEq

/-- `RAGChain.query_with_sources` given the outcomes of its two steps (the
chain invocation and the retriever invocation): any exception is logged and
re-raised unchanged; on success the answer and the per-document formatted
sources are returned. -/
def queryWithSources (chainStep : Except PyErr String)
    (retrieveStep : Except PyErr (List Document)) : Except PyErr QuerySourcesResult :=
  match chainStep with
  | .error e => .error e
  | .ok answer =>
    match retrieveStep with
    | .error e => .error e
    | .ok docs => .ok ⟨answer, docs.map formatSourceEntry⟩

/-! ## `app/core/ragas_evaluator.py` and `aquery_with_evaluation` -/

/-- The evaluation dict: faithfulness and answer-relevancy scores, elapsed
milliseconds, and an error message; `α` abstracts the numeric score type. -/
structure Evaluation (α : Type) where
  faithfulness : Option α
  answer_relevancy : Option α
  evaluation_time_ms : Option α
  error : Option String
deriving Repr, DecidableEq

/-- `RAGASEvaluator._handle_evaluation_error`: null scores plus `str(e)`. -/
def handleEvaluationError (α : Type) (e : PyErr) : Evaluation α :=
  ⟨none, none, none, some (pyStr e)⟩

/-- `RAGASEvaluator.aevaluate` given the outcome of the thread-pool
`_evaluate_with_timeout` call (a row with the two metric entries when they
are present): on any exception the fallback dict is returned; a missing
metric key makes `float(None)` raise `TypeError`, also caught by the same
handler; otherwise the scores are returned with a null error. The
`round(..., 2)` of the elapsed time is elided (the score type is abstract). -/
def aevaluate (α : Type) (run : Except PyErr (Option α × Option α)) (elapsed : α) :
    Evaluation α :=
  match run with
  | .error e => handleEvaluationError α e
  | .ok row =>
    match row.1, row.2 with
    | some f, some r => ⟨some f, some r, some elapsed, none⟩
    | _, _ =>
      handleEvaluationError α
        (.typeError "float() argument must be a string or a real number, not NoneType")

/-- Return dict of `RAGChain.aquery_with_evaluation`. -/
structure QueryEvalResult (α : Type) where
  answer : String
  sources : List SourceEntry
  evaluation : Evaluation α
deriving Repr, DecidableEq

/-- `RAGChain.aquery_with_evaluation` given the outcomes of its two steps:
a failing answer step re-raises; a failing evaluation step (any exception,
including the evaluator-property access) is caught by the inner handler and
replaced by the null-scores dict carrying `str(e)`; the request succeeds. -/
def aqueryWithEvaluation (α : Type) (answerStep : Except PyErr QuerySourcesResult)
    (evalStep : Except PyErr (Evaluation α)) : Except PyErr (QueryEvalResult α) :=
  match answerStep with
  | .error e => .error e
  | .ok r =>
    let evaluation :=
      match evalStep with
      | .ok ev => ev
      | .error e => (⟨none, none, none, some (pyStr e)⟩ : Evaluation α)
    .ok ⟨r.answer, r.sources, evaluation⟩

/-! ## Theorems -/

/-- C9: an upload request whose file has a missing or empty filename is
rejected with HTTP 400 and detail "Filename is required.", with no document
processing and no vector-store operation attempted (no effects, store
unchanged). -/
theorem upload_missing_filename_400 :
    ∀ (loaded : List Document) (split : List Document → List Document)
      (store : List (String × Document)) (g : Nat → String),
      uploadDocumentRoute none loaded split store g =
        ⟨.failure 400 "Filename is required.", [], store⟩ ∧
      uploadDocumentRoute (some "") loaded split store g =
        ⟨.failure 400 "Filename is required.", [], store⟩ := by
  intro loaded split store g
  exact ⟨rfl, rfl⟩

/-- C3: an upload whose filename has an unsupported lowered extension makes
`process_upload` raise `ValueError`, the endpoint answers HTTP 400 with the
error text, and the vector store is not touched (the only effect is the
processor call; the store is unchanged). -/
theorem upload_unsupported_extension_400 :
    ∀ (fn : String) (loaded : List Document) (split : List Document → List Document)
      (store : List (String × Document)) (g : Nat → String),
      fn ≠ "" → suffixLower fn ∉ SUPPORTED_EXTENSIONS →
      processUpload fn loaded split =
        .error (.valueError ("Unsupported file extension: " ++ suffixLower fn)) ∧
      uploadDocumentRoute (some fn) loaded split store g =
        ⟨.failure 400 ("Unsupported file extension: " ++ suffixLower fn),
         [.processCalled], store⟩ := by
  intro fn loaded split store g hfn hext
  have hp : processUpload fn loaded split =
      .error (.valueError ("Unsupported file extension: " ++ suffixLower fn)) := by
    simp only [processUpload, loadFromUpload]
    rw [if_neg hext]
    rfl
  have hd : documentProcessorInit none none = .ok ⟨1000, 200⟩ := rfl
  refine ⟨hp, ?_⟩
  unfold uploadDocumentRoute uploadTryBody
  simp [hfn, hd, hp]

/-- C3 witness: uploading "data.docx" is rejected with HTTP 400 and the
store stays empty. -/
theorem upload_unsupported_extension_400_witness :
    processUpload "data.docx" [] id =
      .error (.valueError ("Unsupported file extension: " ++ suffixLower "data.docx")) ∧
    uploadDocumentRoute (some "data.docx") [] id [] (fun _ => "u") =
      ⟨.failure 400 ("Unsupported file extension: " ++ suffixLower "data.docx"),
       [.processCalled], []⟩ :=
  upload_unsupported_extension_400 "data.docx" [] id [] (fun _ => "u")
    (by decide) (by decide)

/-- C1: uploading "empty.txt", a supported file from which the splitter
produces zero chunks, yields HTTP 500, not the claimed 400: `process_upload`
returns the empty chunk list, and the handler `await` on that plain list
raises `TypeError`, which the generic `except Exception` maps to 500; the
"No content was extracted" 400 branch is unreachable. -/
theorem upload_empty_content_returns_500 :
    processUpload "empty.txt" [⟨"", []⟩] (fun _ => []) = .ok [] ∧
    uploadDocumentRoute (some "empty.txt") [⟨"", []⟩] (fun _ => []) [] (fun _ => "id") =
      ⟨.failure 500 "Internal server error during document upload.",
       [.processCalled], []⟩ := by
  exact ⟨rfl, rfl⟩

/-- C4: no upload ever reaches the success response: for every supported
filename the handler `await` on the plain list returned by the synchronous
`process_upload` raises `TypeError`, so the endpoint answers HTTP 500 and
the store is never written. -/
theorem upload_valid_file_returns_500 :
    ∀ (fn : String) (loaded : List Document) (split : List Document → List Document)
      (store : List (String × Document)) (g : Nat → String),
      fn ≠ "" → suffixLower fn ∈ SUPPORTED_EXTENSIONS →
      uploadDocumentRoute (some fn) loaded split store g =
        ⟨.failure 500 "Internal server error during document upload.",
         [.processCalled], store⟩ := by
  intro fn loaded split store g hfn hext
  have hp : processUpload fn loaded split =
      .ok (split (loaded.map (fun d => ⟨d.page_content, setKey d.metadata "source" fn⟩))) := by
    simp only [processUpload, loadFromUpload]
    rw [if_pos hext]
    rfl
  have hd : documentProcessorInit none none = .ok ⟨1000, 200⟩ := rfl
  have ha : ∀ v : List Document,
      pyAwait (List Document) processUpload_isCoroutine v =
        .error (.typeError "object cannot be used in await expression") :=
    fun v => rfl
  unfold uploadDocumentRoute uploadTryBody
  simp [hfn, hd, hp, ha]

/-- C4 witness: uploading a well-formed non-empty "notes.txt" still returns
HTTP 500 with the store unchanged. -/
theorem upload_valid_file_returns_500_witness :
    uploadDocumentRoute (some "notes.txt") [⟨"hello world", []⟩] id [] (fun _ => "u") =
      ⟨.failure 500 "Internal server error during document upload.",
       [.processCalled], []⟩ :=
  upload_valid_file_returns_500 "notes.txt" [⟨"hello world", []⟩] id [] (fun _ => "u")
    (by decide) (by decide)

/-- C2 counterexample: with no collection in the vector database, a
GET /documents/info request succeeds but reports the status of the
collection that `_ensure_collection` just created ("green" for a healthy
fresh Qdrant collection), not "not_found". -/
theorem info_missing_collection_not_notfound :
    infoRoute "rag_documents" "green" none = .ok ⟨"rag_documents", 0, "green"⟩ ∧
    "green" ≠ "not_found" :=
  ⟨rfl, by decide⟩

/-- C2 amended: when the configured collection does not exist, the info
request does not fail; the service constructor creates the collection, so
the response carries total_documents 0 and the fresh collection status.
`get_collection_info` itself answers "not_found" only when the collection
is absent at the moment it runs; when a collection exists the route reports
its live point count and status. -/
theorem info_missing_collection_creates_and_reports_fresh :
    ∀ (name freshStatus : String) (c : CollectionInfo),
      infoRoute name freshStatus none = .ok ⟨name, 0, freshStatus⟩ ∧
      getCollectionInfo name none = ⟨name, 0, 0, "not_found"⟩ ∧
      infoRoute name freshStatus (some c) = .ok ⟨name, c.points_count, c.status⟩ := by
  intro name freshStatus c
  exact ⟨rfl, rfl, rfl⟩

/-- C5: when the evaluation step raises any exception while the answer step
succeeded, the request still succeeds and the evaluation dict has null
faithfulness, answer_relevancy and evaluation_time_ms entries and the
exception text as its error entry; `aevaluate` internally degrades to the
same dict via `_handle_evaluation_error`. -/
theorem evaluation_failure_graceful :
    ∀ (α : Type) (r : QuerySourcesResult) (e : PyErr) (elapsed : α),
      aqueryWithEvaluation α (.ok r) (.error e) =
        .ok ⟨r.answer, r.sources, ⟨none, none, none, some (pyStr e)⟩⟩ ∧
      aevaluate α (.error e) elapsed = ⟨none, none, none, some (pyStr e)⟩ := by
  intro α r e elapsed
  exact ⟨rfl, rfl⟩

/-- C6 counterexample: `DocumentProcessor(-5, -10)` constructs successfully
and stores a negative chunk_size and chunk_overlap, so the positivity
invariant is not enforced at construction. -/
theorem init_negative_chunks_accepted :
    documentProcessorInit (some (-5)) (some (-10)) = .ok ⟨-5, -10⟩ ∧
    ¬ (0 < (-5 : Int) ∧ 0 < (-10 : Int)) :=
  ⟨rfl, by decide⟩

/-- C6 amended: construction only enforces chunk_overlap ≤ chunk_size (the
third-party splitter check); the stored values are the Python `or` of the
arguments with the configured defaults, so falsy arguments get the positive
defaults but explicit negative values are accepted unchecked. -/
theorem init_only_overlap_check :
    ∀ (cs co : Option Int) (p : DocumentProcessor),
      documentProcessorInit cs co = .ok p →
      p.chunk_overlap ≤ p.chunk_size ∧
      p.chunk_size = pyOrInt cs CHUNK_SIZE_default ∧
      p.chunk_overlap = pyOrInt co CHUNK_OVERLAP_default := by
  intro cs co p h
  simp only [documentProcessorInit] at h
  split at h
  · exact absurd h (by simp)
  · next hc =>
    cases h
    exact ⟨le_of_not_lt hc, rfl, rfl⟩

/-- C6 witness: the default construction stores the configured 1000/200 and
satisfies the overlap bound. -/
theorem init_only_overlap_check_witness :
    (⟨1000, 200⟩ : DocumentProcessor).chunk_overlap ≤
      (⟨1000, 200⟩ : DocumentProcessor).chunk_size ∧
    (⟨1000, 200⟩ : DocumentProcessor).chunk_size = pyOrInt none CHUNK_SIZE_default ∧
    (⟨1000, 200⟩ : DocumentProcessor).chunk_overlap = pyOrInt none CHUNK_OVERLAP_default :=
  init_only_overlap_check none none ⟨1000, 200⟩ rfl

/-- C7: the `RAGChain` class defines `__init` instead of `__init__`, so a
fresh instance has no attributes and every call to `query` — in particular
a query against an empty collection — raises
`AttributeError: RAGChain object has no attribute chain` instead of
returning any answer. -/
theorem query_raises_attribute_error :
    "__init__" ∉ ragChainClassMethods ∧ "__init" ∈ ragChainClassMethods ∧
    ∀ (chainAnswer : String → String) (question : String),
      ragChainQuery ragChainNewAttrs chainAnswer question =
        .error (.attributeError "chain") := by
  refine ⟨by decide, by decide, ?_⟩
  intro chainAnswer question
  rfl

/-- C8: given a successful chain answer and retrieval, query-with-sources
returns the answer together with one source entry per retrieved document;
each entry keeps the document metadata, and its content is the page content
itself when it has at most 500 characters and the first 500 characters
followed by "..." otherwise. -/
theorem query_with_sources_shape :
    ∀ (a : String) (docs : List Document),
      queryWithSources (.ok a) (.ok docs) = .ok ⟨a, docs.map formatSourceEntry⟩ ∧
      (docs.map formatSourceEntry).length = docs.length ∧
      ∀ d : Document,
        (formatSourceEntry d).metadata = d.metadata ∧
        (pyLen d.page_content ≤ 500 → (formatSourceEntry d).content = d.page_content) ∧
        (500 < pyLen d.page_content →
          (formatSourceEntry d).content = pyTake d.page_content 500 ++ "...") := by
  intro a docs
  refine ⟨rfl, docs.length_map _, ?_⟩
  intro d
  refine ⟨rfl, ?_, ?_⟩
  · intro hle
    have hnot : ¬ (pyLen d.page_content > 500) := by omega
    simp [formatSourceEntry, hnot]
  · intro hgt
    simp [formatSourceEntry, hgt]

/-- C8 witness: a short document is passed through unchanged and a 501
character document is truncated to its first 500 characters plus "...". -/
theorem query_with_sources_shape_witness :
    (formatSourceEntry ⟨"hi", [("k", "v")]⟩).content = "hi" ∧
    (formatSourceEntry ⟨String.mk (List.replicate 501 'x'), []⟩).content =
      pyTake (String.mk (List.replicate 501 'x')) 500 ++ "..." := by
  constructor
  · exact ((query_with_sources_shape "a" []).2.2 ⟨"hi", [("k", "v")]⟩).2.1 (by decide)
  · refine ((query_with_sources_shape "a" []).2.2 _).2.2 ?_
    rw [show pyLen (String.mk (List.replicate 501 'x')) =
          (List.replicate 501 'x').length from rfl,
        List.length_replicate]
    norm_num

/-- C10: evaluating the `def add_documents(self, documents, ids=ids)` line
raises `NameError` (no `ids` is in scope), so creating `VectorStoreService`
— and hence importing `app.core.vector_store` at all — fails; the method
body itself, were it reachable, would return one fresh uuid per document,
pass exactly those ids to the underlying store, and leave the store
untouched for an empty document list. -/
theorem add_documents_import_nameerror :
    vectorStoreClassDefinition = .error (.nameError "ids") ∧
    (∀ (store : List (String × Document)) (g : Nat → String),
      addDocumentsBody store g [] = ([], store)) ∧
    ∀ (store : List (String × Document)) (g : Nat → String)
      (documents : List Document),
      addDocumentsBody store g documents =
        ((List.range documents.length).map g,
         store ++ ((List.range documents.length).map g).zip documents) := by
  refine ⟨rfl, fun store g => rfl, ?_⟩
  intro store g documents
  unfold addDocumentsBody
  split
  · next h => subst h; simp
  · rfl

end RagQA
